import Mathlib

/-!
Verification development for the otel-sonifier repository.

The Go extension (`sonifierextension/extension.go`) ingests telemetry over
HTTP, classifies the raw bytes (JSON marker keys, then a protobuf fallback
chain), stores the latest snapshot in a single buffer, and broadcasts an
envelope to every WebSocket subscriber.  The browser side
(`web/script.js`, `web/telemetry-analyzer.js`) analyzes each envelope and
drives an adaptive playback queue, an activity smoother, and a hysteretic
level quantizer.

Bytes are modelled as `List Nat`; the external decoding libraries
(`encoding/json` validity, `json.Unmarshal` into a map, the OTLP protobuf
unmarshal/marshal pairs) are modelled as an abstract `Decoders` record of
oracles, since only their success/failure and the resulting key set steer
the control flow of `handleTelemetry`.  JavaScript numbers are modelled as
rationals.
-/

namespace Sonifier

/-- A byte string, as handled by the Go HTTP handlers. -/
abbrev Bytes := List Nat

/-- The top-level keys of a JSON object that `handleTelemetry` inspects
after a successful `json.Unmarshal` into a map. -/
structure JsonKeys where
  hasResourceSpans : Bool
  hasResourceMetrics : Bool
  hasResourceLogs : Bool

/-- Oracles for the external decoding libraries used by `handleTelemetry`:
JSON validity, unmarshalling into a top-level object, and the three OTLP
protobuf export-request decoders with their JSON marshallers.
`unmarshalObj b = none` models a `json.Unmarshal` error; `tracesMarshal`
etc. return `none` when `MarshalJSON` errors (in which case the Go code
leaves `jsonData` empty). -/
structure Decoders where
  jsonValid : Bytes → Bool
  unmarshalObj : Bytes → Option JsonKeys
  tracesProtoOk : Bytes → Bool
  tracesMarshal : Bytes → Option Bytes
  metricsProtoOk : Bytes → Bool
  metricsMarshal : Bytes → Option Bytes
  logsProtoOk : Bytes → Bool
  logsMarshal : Bytes → Option Bytes

/-- The classification logic of `handleTelemetry`
(`extension.go` lines 143-188): returns the `dataType` string and the
`jsonData` bytes (empty when the Go code never assigns `jsonData`, i.e.
when a protobuf decode succeeded but `MarshalJSON` failed). -/
def classifyTelemetry (d : Decoders) (body : Bytes) : String × Bytes :=
  if d.jsonValid body then
    match d.unmarshalObj body with
    | some keys =>
      if keys.hasResourceSpans then ("traces", body)
      else if keys.hasResourceMetrics then ("metrics", body)
      else if keys.hasResourceLogs then ("logs", body)
      else ("unknown", body)
    | none => ("unknown", body)
  else
    if d.tracesProtoOk body then ("traces", (d.tracesMarshal body).getD [])
    else if d.metricsProtoOk body then ("metrics", (d.metricsMarshal body).getD [])
    else if d.logsProtoOk body then ("logs", (d.logsMarshal body).getD [])
    else ("unknown", body)

/-- The single snapshot slot of the extension: `telemetryData` buffer and
`telemetryType` string, guarded by `s.mu` in the Go code. -/
structure SnapshotState where
  telemetryData : Bytes
  telemetryType : String
deriving DecidableEq

/-- The snapshot slot before any ingestion: empty buffer, empty type. -/
def initialSnapshot : SnapshotState := ⟨[], ""⟩

/-- The store step of `handleTelemetry` (`extension.go` lines 190-197):
reset the buffer, write `jsonData` if non-empty else the raw `body`, and
set `telemetryType`. -/
def storeTelemetry (_st : SnapshotState) (dataType : String)
    (jsonData body : Bytes) : SnapshotState :=
  { telemetryData := if jsonData.length > 0 then jsonData else body
    telemetryType := dataType }

/-- A JSON payload value as placed in the envelope: either the stored
bytes passed through as raw JSON, or (when they are not valid JSON) the
bytes marshalled as a single JSON string. -/
inductive Payload where
  | raw (bytes : Bytes)
  | wrapped (bytes : Bytes)
deriving DecidableEq

/-- `handleGetTelemetryData` (`extension.go` lines 229-264): respond
`204 No Content` (`none`) when the buffer is empty, otherwise the envelope
`{type, payload}` with the payload string-wrapped when it is not valid
JSON. -/
def handleGetTelemetryData (d : Decoders) (st : SnapshotState) :
    Option (String × Payload) :=
  if st.telemetryData.length = 0 then none
  else some (st.telemetryType,
    if d.jsonValid st.telemetryData then Payload.raw st.telemetryData
    else Payload.wrapped st.telemetryData)

/-- `broadcastToWebSockets` (`extension.go` lines 303-315), with
subscriber connections as identifiers and `ok c` the success of
`conn.WriteMessage` for this message: iterate the registered set, attempt
a write to each, and on failure close and delete the connection.  Returns
`(attempted, remaining, closed)`: the connections a write was attempted
on, the set left registered afterwards, and the connections closed and
removed. -/
def broadcastToWebSockets (ok : Nat → Bool) :
    List Nat → List Nat × List Nat × List Nat
  | [] => ([], [], [])
  | c :: cs =>
    let r := broadcastToWebSockets ok cs
    if ok c then (c :: r.1, c :: r.2.1, r.2.2)
    else (c :: r.1, r.2.1, c :: r.2.2)

end Sonifier

namespace Sonifier

/-- C1: For every byte sequence submitted to the ingestion handler,
normalization is total: the classification is always one of
traces / metrics / logs / unknown; valid JSON is classified by its
top-level marker keys; otherwise the binary decoders are tried in the
strict order traces, metrics, logs; and when none decode the input is
classified unknown with the raw bytes carried as the payload.  No input
yields an error: `classifyTelemetry` is a total function. -/
theorem classifyTelemetry_total_and_ordered (d : Decoders) (body : Bytes) :
    ((classifyTelemetry d body).1 = "traces" ∨
     (classifyTelemetry d body).1 = "metrics" ∨
     (classifyTelemetry d body).1 = "logs" ∨
     (classifyTelemetry d body).1 = "unknown") ∧
    (∀ keys, d.jsonValid body = true → d.unmarshalObj body = some keys →
      (keys.hasResourceSpans = true → classifyTelemetry d body = ("traces", body)) ∧
      (keys.hasResourceSpans = false → keys.hasResourceMetrics = true →
        classifyTelemetry d body = ("metrics", body)) ∧
      (keys.hasResourceSpans = false → keys.hasResourceMetrics = false →
        keys.hasResourceLogs = true → classifyTelemetry d body = ("logs", body)) ∧
      (keys.hasResourceSpans = false → keys.hasResourceMetrics = false →
        keys.hasResourceLogs = false → classifyTelemetry d body = ("unknown", body))) ∧
    (d.jsonValid body = true → d.unmarshalObj body = none →
      classifyTelemetry d body = ("unknown", body)) ∧
    (d.jsonValid body = false →
      (d.tracesProtoOk body = true → (classifyTelemetry d body).1 = "traces") ∧
      (d.tracesProtoOk body = false → d.metricsProtoOk body = true →
        (classifyTelemetry d body).1 = "metrics") ∧
      (d.tracesProtoOk body = false → d.metricsProtoOk body = false →
        d.logsProtoOk body = true → (classifyTelemetry d body).1 = "logs") ∧
      (d.tracesProtoOk body = false → d.metricsProtoOk body = false →
        d.logsProtoOk body = false →
        classifyTelemetry d body = ("unknown", body))) := by
  unfold classifyTelemetry
  refine ⟨?_, ?_, ?_, ?_⟩
  · split
    · rename_i hjson
      cases hobj : d.unmarshalObj body with
      | none => simp
      | some keys =>
        by_cases h1 : keys.hasResourceSpans <;>
          by_cases h2 : keys.hasResourceMetrics <;>
          by_cases h3 : keys.hasResourceLogs <;>
          simp [h1, h2, h3]
    · by_cases h1 : d.tracesProtoOk body <;>
        by_cases h2 : d.metricsProtoOk body <;>
        by_cases h3 : d.logsProtoOk body <;>
        simp [h1, h2, h3]
  · intro keys hjson hobj
    refine ⟨?_, ?_, ?_, ?_⟩ <;> intros <;> simp_all
  · intro hjson hobj
    simp_all
  · intro hjson
    refine ⟨?_, ?_, ?_, ?_⟩ <;> intros <;> simp_all

/-- Witness for C1 at a concrete decoder set and body: a decoder family
for which `[7]` is not valid JSON and only the metrics protobuf decoder
succeeds classifies `[7]` as metrics. -/
theorem classifyTelemetry_total_and_ordered_witness :
    (let d : Decoders :=
      { jsonValid := fun _ => false
        unmarshalObj := fun _ => none
        tracesProtoOk := fun _ => false
        tracesMarshal := fun _ => none
        metricsProtoOk := fun _ => true
        metricsMarshal := fun _ => some [1, 2]
        logsProtoOk := fun _ => false
        logsMarshal := fun _ => none }
     (classifyTelemetry d [7]).1 = "metrics") := by
  exact ((classifyTelemetry_total_and_ordered _ [7]).2.2.2 rfl).2.1 rfl rfl

/-- C2: after the ingestion handler stores `(k, p)` in the snapshot slot
(with `p` the bytes actually written: `jsonData` when non-empty, else the
raw body), the pull endpoint returns exactly `(k, p)` — `p` string-wrapped
when it is not valid JSON — and a later store completely overwrites the
slot (last-write-wins); before any ingestion the pull endpoint answers
with the no-content signal. -/
theorem snapshot_put_get (d : Decoders) (st : SnapshotState)
    (k : String) (jsonData body : Bytes)
    (hne : (storeTelemetry st k jsonData body).telemetryData ≠ []) :
    handleGetTelemetryData d (storeTelemetry st k jsonData body) =
      some (k,
        if d.jsonValid (storeTelemetry st k jsonData body).telemetryData then
          Payload.raw (storeTelemetry st k jsonData body).telemetryData
        else
          Payload.wrapped (storeTelemetry st k jsonData body).telemetryData) ∧
    (∀ k₂ jd₂ b₂,
      storeTelemetry (storeTelemetry st k jsonData body) k₂ jd₂ b₂ =
        storeTelemetry st k₂ jd₂ b₂) ∧
    handleGetTelemetryData d initialSnapshot = none := by
  refine ⟨?_, fun _ _ _ => rfl, rfl⟩
  unfold handleGetTelemetryData
  rw [if_neg (by simpa [List.length_eq_zero] using hne)]
  rfl

/-- Witness for C2: storing metrics bytes `[1]` over the initial state and
reading them back through a decoder that deems them invalid JSON yields
the string-wrapped envelope. -/
theorem snapshot_put_get_witness :
    (let d : Decoders :=
      { jsonValid := fun _ => false
        unmarshalObj := fun _ => none
        tracesProtoOk := fun _ => false
        tracesMarshal := fun _ => none
        metricsProtoOk := fun _ => false
        metricsMarshal := fun _ => none
        logsProtoOk := fun _ => false
        logsMarshal := fun _ => none }
     handleGetTelemetryData d (storeTelemetry initialSnapshot "metrics" [] [1]) =
       some ("metrics", Payload.wrapped [1])) := by
  exact (snapshot_put_get _ initialSnapshot "metrics" [] [1] (by decide)).1

/-- C3: `broadcastToWebSockets` attempts delivery to every subscriber
registered at call time (each exactly once, so nothing is retried), keeps
exactly the subscribers whose write succeeded, and closes/removes exactly
those whose write failed — so one subscriber's failure never prevents the
attempt on any other and the function always returns normally (it is
total, with no error channel); with zero subscribers it is a no-op. -/
theorem broadcast_delivers_and_prunes (ok : Nat → Bool) (subs : List Nat) :
    broadcastToWebSockets ok subs =
      (subs, subs.filter ok, subs.filter (fun c => !(ok c))) := by
  induction subs with
  | nil => rfl
  | cons c cs ih =>
    by_cases h : ok c <;> simp [broadcastToWebSockets, ih, h, List.filter]

end Sonifier

namespace Sonifier

/-- `this.basePlaybackRate` in `script.js`: 20 ms between drops. -/
def basePlaybackRate : Nat := 20

/-- An element of `telemetry.traces.traceIds` as queued in
`this.traceQueue` in `script.js`. -/
structure TraceIdEntry where
  id : String
  shortId : String
  isError : Bool
deriving DecidableEq

/-- `adjustPlaybackRate` (`script.js` lines 277-300): recompute
`currentPlaybackRate` (ms) from the queue length. -/
def adjustPlaybackRate (base queueLength : Nat) : Nat :=
  if queueLength > 200 then 1
  else if queueLength > 100 then 2
  else if queueLength > 50 then 5
  else if queueLength > 20 then 10
  else if queueLength < 5 then base * 2
  else base

/-- The mutable visualizer playback state used by the constant-rain loop:
`this.traceQueue` and `this.currentPlaybackRate`. -/
structure RainState where
  traceQueue : List TraceIdEntry
  currentPlaybackRate : Nat
deriving DecidableEq

/-- One iteration of `playNextTrace` in `startConstantRain`
(`script.js` lines 302-316): if the queue is non-empty, shift one trace
off the front and hand it to `createRaindrop`; then schedule the next
iteration after `this.currentPlaybackRate` ms.  Returns the presented
trace (if any), the state afterwards, and the delay used for the next
tick. -/
def playNextTrace (st : RainState) : Option TraceIdEntry × RainState × Nat :=
  match st.traceQueue with
  | [] => (none, st, st.currentPlaybackRate)
  | t :: ts => (some t, { st with traceQueue := ts }, st.currentPlaybackRate)

/-- The state transition of one playback tick, dropping the presented
item and the delay. -/
def tickState (st : RainState) : RainState := (playNextTrace st).2.1

/-- `n` consecutive playback ticks. -/
def runTicks : Nat → RainState → RainState
  | 0, st => st
  | n + 1, st => runTicks n (tickState st)

/-- The trace-buffering branch of `updateVisualization`
(`script.js` lines 121-134): when a traces envelope with a positive span
count arrives, push every entry of `traceIds` onto the queue and then
call `adjustPlaybackRate`, which recomputes the rate from the new queue
length. -/
def onTracesArrival (st : RainState) (count : Nat)
    (traceIds : List TraceIdEntry) : RainState :=
  if count > 0 then
    let q := st.traceQueue ++ traceIds
    { traceQueue := q
      currentPlaybackRate := adjustPlaybackRate basePlaybackRate q.length }
  else st

end Sonifier

namespace Sonifier

/-- Counterexample to C4: the claim puts depth 20 in the "20–49 ⇒ faster
than baseline" band, but `adjustPlaybackRate` at queue length 20 returns
exactly the baseline delay (20 ms), not a faster (smaller) one. -/
theorem adjustPlaybackRate_band_boundary_cex :
    adjustPlaybackRate basePlaybackRate 20 = basePlaybackRate ∧
    ¬ adjustPlaybackRate basePlaybackRate 20 < basePlaybackRate := by
  constructor <;> decide

/-- C4 (amended): the recomputed inter-tick delay is a non-increasing
function of queue depth, with exact bands: depth 0–4 ⇒ double the
baseline (40 ms), 5–20 ⇒ baseline (20 ms), 21–50 ⇒ 10 ms, 51–100 ⇒ 5 ms,
101–200 ⇒ 2 ms, and depth > 200 ⇒ the 1 ms floor; in particular a jump
from depth 0 to depth 300 lands on the floor immediately. -/
theorem adjustPlaybackRate_bands (q : Nat) :
    (∀ q₁ q₂ : Nat, q₁ ≤ q₂ →
      adjustPlaybackRate basePlaybackRate q₂ ≤
        adjustPlaybackRate basePlaybackRate q₁) ∧
    (q ≤ 4 → adjustPlaybackRate basePlaybackRate q = 40) ∧
    (5 ≤ q → q ≤ 20 → adjustPlaybackRate basePlaybackRate q = 20) ∧
    (21 ≤ q → q ≤ 50 → adjustPlaybackRate basePlaybackRate q = 10) ∧
    (51 ≤ q → q ≤ 100 → adjustPlaybackRate basePlaybackRate q = 5) ∧
    (101 ≤ q → q ≤ 200 → adjustPlaybackRate basePlaybackRate q = 2) ∧
    (201 ≤ q → adjustPlaybackRate basePlaybackRate q = 1) ∧
    adjustPlaybackRate basePlaybackRate 300 = 1 := by
  refine ⟨?_, ?_, ?_, ?_, ?_, ?_, ?_, by decide⟩
  · intro q₁ q₂ h
    unfold adjustPlaybackRate basePlaybackRate
    split_ifs <;> omega
  all_goals
    intros
    unfold adjustPlaybackRate basePlaybackRate
    split_ifs <;> omega

/-- Witness for C4 (amended) at concrete depths: 3 ≤ 7 with delays
40 and 20, and each band hit at one point. -/
theorem adjustPlaybackRate_bands_witness :
    adjustPlaybackRate basePlaybackRate 7 ≤
      adjustPlaybackRate basePlaybackRate 3 ∧
    adjustPlaybackRate basePlaybackRate 3 = 40 ∧
    adjustPlaybackRate basePlaybackRate 7 = 20 ∧
    adjustPlaybackRate basePlaybackRate 30 = 10 ∧
    adjustPlaybackRate basePlaybackRate 70 = 5 ∧
    adjustPlaybackRate basePlaybackRate 150 = 2 ∧
    adjustPlaybackRate basePlaybackRate 250 = 1 :=
  ⟨(adjustPlaybackRate_bands 0).1 3 7 (by decide),
   (adjustPlaybackRate_bands 3).2.1 (by decide),
   (adjustPlaybackRate_bands 7).2.2.1 (by decide) (by decide),
   (adjustPlaybackRate_bands 30).2.2.2.1 (by decide) (by decide),
   (adjustPlaybackRate_bands 70).2.2.2.2.1 (by decide) (by decide),
   (adjustPlaybackRate_bands 150).2.2.2.2.2.1 (by decide) (by decide),
   (adjustPlaybackRate_bands 250).2.2.2.2.2.2.1 (by decide)⟩

/-- Counterexample to C5's rate-recomputation clause: after a burst of 30
traces (rate set to 10 ms from depth 30) and 27 ticks, the queue holds 3
items, yet the next tick is scheduled with the stale 10 ms delay — not
the 40 ms that recomputing from the current depth 3 would give. -/
theorem playback_delay_not_recomputed_cex :
    (let st := runTicks 27
        (onTracesArrival ⟨[], basePlaybackRate⟩ 30
          (List.replicate 30 ⟨"t", "t", false⟩))
     st.traceQueue.length = 3 ∧
     (playNextTrace st).2.2 = 10 ∧
     adjustPlaybackRate basePlaybackRate st.traceQueue.length = 40 ∧
     (playNextTrace st).2.2 ≠
       adjustPlaybackRate basePlaybackRate st.traceQueue.length) := by
  decide

/-- C5 (amended): on every playback tick with a non-empty queue exactly
one item — the head, i.e. the oldest in FIFO order — is removed and
handed to presentation, the rest of the queue is untouched; the delay
scheduling the next tick is the stored `currentPlaybackRate`, which the
tick itself does not recompute (it is recomputed from the queue length
only when new traces arrive, by `onTracesArrival`). -/
theorem playback_tick_fifo (st : RainState) (t : TraceIdEntry)
    (ts : List TraceIdEntry) (h : st.traceQueue = t :: ts) :
    playNextTrace st =
      (some t, { st with traceQueue := ts }, st.currentPlaybackRate) ∧
    (∀ c ids, (onTracesArrival st c ids).currentPlaybackRate =
      if c > 0 then
        adjustPlaybackRate basePlaybackRate (st.traceQueue ++ ids).length
      else st.currentPlaybackRate) := by
  constructor
  · simp [playNextTrace, h]
  · intro c ids
    by_cases hc : c > 0 <;> simp [onTracesArrival, hc]

/-- Witness for C5 (amended): a two-element queue pops its head and keeps
its stored 20 ms delay. -/
theorem playback_tick_fifo_witness :
    playNextTrace ⟨[⟨"a", "a", false⟩, ⟨"b", "b", true⟩], 20⟩ =
      (some ⟨"a", "a", false⟩, ⟨[⟨"b", "b", true⟩], 20⟩, 20) :=
  (playback_tick_fifo ⟨[⟨"a", "a", false⟩, ⟨"b", "b", true⟩], 20⟩
    ⟨"a", "a", false⟩ [⟨"b", "b", true⟩] rfl).1

end Sonifier

namespace Sonifier

/-! The decoded OTLP JSON document as walked by `telemetry-analyzer.js`.
Fields reached through the optional-chaining operator or guarded by
truthiness tests are modelled as `Option`; JavaScript numbers as `ℚ`
(the integral nanosecond timestamps and `asInt` as `ℤ`). -/

/-- `span.status`, carrying the status `code` checked against 2. -/
structure SpanStatus where
  code : Option Int
deriving DecidableEq

/-- A span of a traces payload, with the fields the analyzer reads. -/
structure Span where
  traceId : String
  spanStatus : Option SpanStatus
  kind : Option Int
  startTimeUnixNano : Option Int
  endTimeUnixNano : Option Int
deriving DecidableEq

/-- `span.status?.code`: `none` when `status` or `code` is absent. -/
def Span.statusCode (s : Span) : Option Int :=
  s.spanStatus.bind SpanStatus.code

/-- `span.status?.code === 2`. -/
def Span.isError (s : Span) : Bool := s.statusCode == some 2

/-- JavaScript truthiness of a possibly-absent number: `undefined` and
`0` are falsy. -/
def jsTruthyInt : Option Int → Bool
  | some n => n != 0
  | none => false

/-- `scopeSpan.spans` (optional). -/
structure ScopeSpans where
  spans : Option (List Span)
deriving DecidableEq

/-- `resourceSpan.scopeSpans` (optional). -/
structure ResourceSpans where
  scopeSpans : Option (List ScopeSpans)
deriving DecidableEq

/-- A gauge or sum data point with its `asDouble` / `asInt` fields. -/
structure NumberDataPoint where
  asDouble : Option ℚ
  asInt : Option Int
deriving DecidableEq

/-- `metric.gauge`, with its optional `dataPoints`. -/
structure GaugeData where
  dataPoints : Option (List NumberDataPoint)
deriving DecidableEq

/-- `metric.sum`, with its optional `dataPoints`. -/
structure SumData where
  dataPoints : Option (List NumberDataPoint)
deriving DecidableEq

/-- A metric of a metrics payload, with the fields the analyzer reads. -/
structure Metric where
  name : String
  gauge : Option GaugeData
  sum : Option SumData
deriving DecidableEq

/-- `scopeMetric.metrics` (optional). -/
structure ScopeMetrics where
  metrics : Option (List Metric)
deriving DecidableEq

/-- `resourceMetric.scopeMetrics` (optional). -/
structure ResourceMetrics where
  scopeMetrics : Option (List ScopeMetrics)
deriving DecidableEq

/-- A log record with the severity fields the analyzer reads. -/
structure LogRecord where
  severityText : Option String
  severityNumber : Option Int
deriving DecidableEq

/-- `scopeLog.logRecords` (optional). -/
structure ScopeLogs where
  logRecords : Option (List LogRecord)
deriving DecidableEq

/-- `resourceLog.scopeLogs` (optional). -/
structure ResourceLogs where
  scopeLogs : Option (List ScopeLogs)
deriving DecidableEq

/-- The decoded telemetry document handed to
`TelemetryAnalyzer.analyzeTelemetry`; each top-level section is absent
unless the payload is of the corresponding kind. -/
structure RawTelemetry where
  resourceSpans : Option (List ResourceSpans)
  resourceMetrics : Option (List ResourceMetrics)
  resourceLogs : Option (List ResourceLogs)
deriving DecidableEq

/-- The local accumulators of `analyzeTraces`: `totalTraces`,
`errorTraces`, `totalDuration`, `traceCount` and the `traceIds` array.
(The instance-level `traceStartTimes` / `traceDurations` bookkeeping
feeds no returned field and is not modelled.) -/
structure TraceAcc where
  totalTraces : Nat
  errorTraces : Nat
  totalDuration : ℚ
  traceCount : Nat
  traceIds : List TraceIdEntry
deriving DecidableEq

/-- The body of the innermost span loop of `analyzeTraces`
(`telemetry-analyzer.js` lines 30-59): count the span, record its id
(first 8 characters as `shortId`) when the id is a non-empty string,
accumulate the duration when both timestamps are present and non-zero,
and count an error when `status?.code === 2`. -/
def spanStep (acc : TraceAcc) (span : Span) : TraceAcc :=
  { totalTraces := acc.totalTraces + 1
    errorTraces := acc.errorTraces + (if span.isError then 1 else 0)
    totalDuration := acc.totalDuration +
      (if jsTruthyInt span.endTimeUnixNano && jsTruthyInt span.startTimeUnixNano then
        (((span.endTimeUnixNano.getD 0 - span.startTimeUnixNano.getD 0 : Int) : ℚ) / 1000000)
      else 0)
    traceCount := acc.traceCount +
      (if jsTruthyInt span.endTimeUnixNano && jsTruthyInt span.startTimeUnixNano then 1 else 0)
    traceIds := acc.traceIds ++
      (if span.traceId ≠ "" then
        [⟨span.traceId, span.traceId.take 8, span.isError⟩]
      else []) }

/-- The nested `forEach` walk of `analyzeTraces` over
`resourceSpans → scopeSpans → spans`, starting from zeroed
accumulators. -/
def tracesFold (rss : List ResourceSpans) : TraceAcc :=
  rss.foldl (fun a rs =>
    (rs.scopeSpans.getD []).foldl (fun a ss =>
      (ss.spans.getD []).foldl spanStep a) a) ⟨0, 0, 0, 0, []⟩

/-- The record returned by `analyzeTraces`. -/
structure TraceResult where
  count : Nat
  errorRate : ℚ
  averageLength : ℚ
  traceIds : List TraceIdEntry
deriving DecidableEq

/-- `analyzeTraces` (`telemetry-analyzer.js` lines 17-76): zero result
when `resourceSpans` is absent, otherwise the walked totals with
`errorRate = errors/total` when `total > 0` (else 0) and
`averageLength = totalDuration/traceCount` when observed (else 0). -/
def analyzeTraces (rt : RawTelemetry) : TraceResult :=
  match rt.resourceSpans with
  | none => ⟨0, 0, 0, []⟩
  | some rss =>
    let a := tracesFold rss
    ⟨a.totalTraces,
     if a.totalTraces > 0 then (a.errorTraces : ℚ) / (a.totalTraces : ℚ) else 0,
     if a.traceCount > 0 then a.totalDuration / (a.traceCount : ℚ) else 0,
     a.traceIds⟩

/-- The `cpu` / `memory` / `disk` accumulators of `analyzeMetrics`. -/
structure MetricsAcc where
  cpu : ℚ
  memory : ℚ
  disk : ℚ
deriving DecidableEq

/-- The gauge-point loop of `analyzeMetrics`: running maximum of
`asDouble * 100` over points whose `asDouble` is defined. -/
def gaugeMax (start : ℚ) (pts : List NumberDataPoint) : ℚ :=
  pts.foldl (fun c p =>
    match p.asDouble with
    | some v => max c (v * 100)
    | none => c) start

/-- The disk sum-point loop of `analyzeMetrics`: running maximum of
`min 100 (asInt / 100)` over points whose `asInt` is defined. -/
def diskMax (start : ℚ) (pts : List NumberDataPoint) : ℚ :=
  pts.foldl (fun c p =>
    match p.asInt with
    | some v => max c (min 100 ((v : ℚ) / 100))
    | none => c) start

/-- The `system.cpu.utilization` branch of the metric loop
(`telemetry-analyzer.js` lines 92-98). -/
def metricStepCpu (acc : MetricsAcc) (m : Metric) : MetricsAcc :=
  if m.name = "system.cpu.utilization" then
    match m.gauge with
    | some g => { acc with cpu := gaugeMax acc.cpu (g.dataPoints.getD []) }
    | none => acc
  else acc

/-- The `system.memory.utilization` branch of the metric loop
(`telemetry-analyzer.js` lines 101-107). -/
def metricStepMemory (acc : MetricsAcc) (m : Metric) : MetricsAcc :=
  if m.name = "system.memory.utilization" then
    match m.gauge with
    | some g => { acc with memory := gaugeMax acc.memory (g.dataPoints.getD []) }
    | none => acc
  else acc

/-- The `system.disk.io` branch of the metric loop
(`telemetry-analyzer.js` lines 110-117). -/
def metricStepDisk (acc : MetricsAcc) (m : Metric) : MetricsAcc :=
  if m.name = "system.disk.io" then
    match m.sum with
    | some sd => { acc with disk := diskMax acc.disk (sd.dataPoints.getD []) }
    | none => acc
  else acc

/-- The body of the metric loop of `analyzeMetrics`: the three
independent branches applied in source order. -/
def metricStep (acc : MetricsAcc) (m : Metric) : MetricsAcc :=
  metricStepDisk (metricStepMemory (metricStepCpu acc m) m) m

/-- The nested `forEach` walk of `analyzeMetrics` over
`resourceMetrics → scopeMetrics → metrics`, starting from zeroes. -/
def metricsFold (rms : List ResourceMetrics) : MetricsAcc :=
  rms.foldl (fun a rm =>
    (rm.scopeMetrics.getD []).foldl (fun a sm =>
      (sm.metrics.getD []).foldl metricStep a) a) ⟨0, 0, 0⟩

/-- The record returned by `analyzeMetrics`. -/
structure MetricsResult where
  cpu : ℚ
  memory : ℚ
  disk : ℚ
  critical : Bool
deriving DecidableEq

/-- `analyzeMetrics` (`telemetry-analyzer.js` lines 78-125): zero result
when `resourceMetrics` is absent, otherwise the walked maxima with
`critical = cpu > 80 || memory > 80 || disk > 80`. -/
def analyzeMetrics (rt : RawTelemetry) : MetricsResult :=
  match rt.resourceMetrics with
  | none => ⟨0, 0, 0, false⟩
  | some rms =>
    let a := metricsFold rms
    ⟨a.cpu, a.memory, a.disk,
     decide (a.cpu > 80) || decide (a.memory > 80) || decide (a.disk > 80)⟩

/-- `log.severityText === 'ERROR' || log.severityText === 'FATAL' ||
(log.severityNumber && log.severityNumber >= 17)`. -/
def LogRecord.isError (l : LogRecord) : Bool :=
  l.severityText == some "ERROR" || l.severityText == some "FATAL" ||
    (jsTruthyInt l.severityNumber && decide (l.severityNumber.getD 0 ≥ 17))

/-- The body of the log-record loop of `analyzeLogs`: count the record
and count an error when it is error-severity. -/
def logStep (acc : Nat × Nat) (l : LogRecord) : Nat × Nat :=
  (acc.1 + 1, acc.2 + (if l.isError then 1 else 0))

/-- The nested `forEach` walk of `analyzeLogs` over
`resourceLogs → scopeLogs → logRecords`: `(totalLogs, errorLogs)`. -/
def logsFold (rls : List ResourceLogs) : Nat × Nat :=
  rls.foldl (fun a rl =>
    (rl.scopeLogs.getD []).foldl (fun a sl =>
      (sl.logRecords.getD []).foldl logStep a) a) (0, 0)

/-- The record returned by `analyzeLogs`. -/
structure LogsResult where
  errorRate : ℚ
  totalCount : Nat
deriving DecidableEq

/-- `analyzeLogs` (`telemetry-analyzer.js` lines 127-151): zero result
when `resourceLogs` is absent, otherwise `errorRate = errors/total` when
`total > 0` (else 0) with the total record count. -/
def analyzeLogs (rt : RawTelemetry) : LogsResult :=
  match rt.resourceLogs with
  | none => ⟨0, 0⟩
  | some rls =>
    let a := logsFold rls
    ⟨if a.1 > 0 then (a.2 : ℚ) / (a.1 : ℚ) else 0, a.1⟩

end Sonifier

namespace Sonifier

/-- A left fold preserves any invariant its step function preserves. -/
theorem foldl_preserves {α β : Type _} (P : α → Prop) (f : α → β → α)
    (hf : ∀ a b, P a → P (f a b)) :
    ∀ (l : List β) (a : α), P a → P (l.foldl f a) := by
  intro l
  induction l with
  | nil => exact fun a h => h
  | cons b l ih => exact fun a h => ih (f a b) (hf a b h)

/-- `spanStep` keeps the error count at most the span count. -/
theorem spanStep_err_le (a : TraceAcc) (s : Span)
    (h : a.errorTraces ≤ a.totalTraces) :
    (spanStep a s).errorTraces ≤ (spanStep a s).totalTraces := by
  simp only [spanStep]
  split_ifs <;> omega

/-- Over the whole walk, errors never exceed the span total. -/
theorem tracesFold_err_le (rss : List ResourceSpans) :
    (tracesFold rss).errorTraces ≤ (tracesFold rss).totalTraces := by
  unfold tracesFold
  refine foldl_preserves (fun a : TraceAcc => a.errorTraces ≤ a.totalTraces) _
    (fun a rs h => ?_) rss ⟨0, 0, 0, 0, []⟩ (by simp)
  refine foldl_preserves (fun a : TraceAcc => a.errorTraces ≤ a.totalTraces) _
    (fun a ss h => ?_) _ a h
  exact foldl_preserves (fun a : TraceAcc => a.errorTraces ≤ a.totalTraces) spanStep
    spanStep_err_le _ a h

/-- `logStep` keeps the error count at most the record count. -/
theorem logStep_err_le (a : Nat × Nat) (l : LogRecord) (h : a.2 ≤ a.1) :
    (logStep a l).2 ≤ (logStep a l).1 := by
  simp only [logStep]
  split_ifs <;> omega

/-- Over the whole walk, error records never exceed the record total. -/
theorem logsFold_err_le (rls : List ResourceLogs) :
    (logsFold rls).2 ≤ (logsFold rls).1 := by
  unfold logsFold
  refine foldl_preserves (fun a : Nat × Nat => a.2 ≤ a.1) _
    (fun a rl h => ?_) rls (0, 0) (by simp)
  refine foldl_preserves (fun a : Nat × Nat => a.2 ≤ a.1) _
    (fun a sl h => ?_) _ a h
  exact foldl_preserves (fun a : Nat × Nat => a.2 ≤ a.1) logStep
    logStep_err_le _ a h

/-- A ratio of counts with numerator at most denominator lies in `[0,1]`. -/
theorem count_ratio_mem_unit (e t : Nat) (h : e ≤ t) (ht : 0 < t) :
    0 ≤ (e : ℚ) / (t : ℚ) ∧ (e : ℚ) / (t : ℚ) ≤ 1 := by
  have ht' : (0 : ℚ) < (t : ℚ) := by exact_mod_cast ht
  constructor
  · positivity
  · rw [div_le_one ht']
    exact_mod_cast h

/-- A running maximum never drops below its start. -/
theorem le_gaugeMax : ∀ (pts : List NumberDataPoint) (start : ℚ),
    start ≤ gaugeMax start pts := by
  intro pts
  induction pts with
  | nil => exact fun start => le_refl start
  | cons p pts ih =>
    intro start
    have h1 : start ≤ match p.asDouble with
        | some v => max start (v * 100)
        | none => start := by
      cases p.asDouble with
      | some v => exact le_max_left _ _
      | none => exact le_refl _
    exact le_trans h1 (ih _)

/-- The disk running maximum never drops below its start. -/
theorem le_diskMax : ∀ (pts : List NumberDataPoint) (start : ℚ),
    start ≤ diskMax start pts := by
  intro pts
  induction pts with
  | nil => exact fun start => le_refl start
  | cons p pts ih =>
    intro start
    have h1 : start ≤ match p.asInt with
        | some v => max start (min 100 ((v : ℚ) / 100))
        | none => start := by
      cases p.asInt with
      | some v => exact le_max_left _ _
      | none => exact le_refl _
    exact le_trans h1 (ih _)

/-- The disk running maximum stays capped at 100. -/
theorem diskMax_le : ∀ (pts : List NumberDataPoint) (start : ℚ),
    start ≤ 100 → diskMax start pts ≤ 100
  | [], _, h => h
  | p :: pts, start, h => by
    have hstep : (match p.asInt with
        | some v => max start (min 100 ((v : ℚ) / 100))
        | none => start) ≤ 100 := by
      cases p.asInt with
      | some v => exact max_le h (min_le_left _ _)
      | none => exact h
    exact diskMax_le pts _ hstep

/-- The bounds invariant carried through the metric walk: `cpu`, `memory`
and `disk` stay non-negative and `disk` stays at most 100. -/
def MetricsAcc.Bounded (a : MetricsAcc) : Prop :=
  0 ≤ a.cpu ∧ 0 ≤ a.memory ∧ 0 ≤ a.disk ∧ a.disk ≤ 100

/-- The cpu branch preserves the bounds invariant. -/
theorem metricStepCpu_bounded (a : MetricsAcc) (m : Metric)
    (h : a.Bounded) : (metricStepCpu a m).Bounded := by
  obtain ⟨h1, h2, h3, h4⟩ := h
  unfold metricStepCpu
  split_ifs
  · cases m.gauge with
    | none => exact ⟨h1, h2, h3, h4⟩
    | some g => exact ⟨le_trans h1 (le_gaugeMax _ _), h2, h3, h4⟩
  · exact ⟨h1, h2, h3, h4⟩

/-- The memory branch preserves the bounds invariant. -/
theorem metricStepMemory_bounded (a : MetricsAcc) (m : Metric)
    (h : a.Bounded) : (metricStepMemory a m).Bounded := by
  obtain ⟨h1, h2, h3, h4⟩ := h
  unfold metricStepMemory
  split_ifs
  · cases m.gauge with
    | none => exact ⟨h1, h2, h3, h4⟩
    | some g => exact ⟨h1, le_trans h2 (le_gaugeMax _ _), h3, h4⟩
  · exact ⟨h1, h2, h3, h4⟩

/-- The disk branch preserves the bounds invariant. -/
theorem metricStepDisk_bounded (a : MetricsAcc) (m : Metric)
    (h : a.Bounded) : (metricStepDisk a m).Bounded := by
  obtain ⟨h1, h2, h3, h4⟩ := h
  unfold metricStepDisk
  split_ifs
  · cases m.sum with
    | none => exact ⟨h1, h2, h3, h4⟩
    | some sd =>
      exact ⟨h1, h2, le_trans h3 (le_diskMax _ _), diskMax_le _ _ h4⟩
  · exact ⟨h1, h2, h3, h4⟩

/-- The whole metric-loop body preserves the bounds invariant. -/
theorem metricStep_bounded (a : MetricsAcc) (m : Metric)
    (h : a.Bounded) : (metricStep a m).Bounded :=
  metricStepDisk_bounded _ m
    (metricStepMemory_bounded _ m (metricStepCpu_bounded a m h))

/-- The whole metrics walk satisfies the bounds invariant. -/
theorem metricsFold_bounded (rms : List ResourceMetrics) :
    (metricsFold rms).Bounded := by
  unfold metricsFold
  refine foldl_preserves MetricsAcc.Bounded _ (fun a rm h => ?_) rms
    ⟨0, 0, 0⟩ ⟨le_refl 0, le_refl 0, le_refl 0, by norm_num⟩
  refine foldl_preserves MetricsAcc.Bounded _ (fun a sm h => ?_) _ a h
  exact foldl_preserves MetricsAcc.Bounded metricStep metricStep_bounded _ a h

end Sonifier

namespace Sonifier

/-- A metrics payload with a single `system.cpu.utilization` gauge point
whose `asDouble` is 2 (a nonsensical 200% utilization sample). -/
def overUnitGaugePayload : RawTelemetry :=
  ⟨none,
   some [⟨some [⟨some [⟨"system.cpu.utilization",
     some ⟨some [⟨some 2, none⟩]⟩, none⟩]⟩]⟩],
   none⟩

/-- Counterexample to C6: the claim bounds cpu by 100, but a gauge point
with `asDouble = 2` yields `cpu = 200` — `analyzeMetrics` caps only
`disk`, never `cpu` or `memory`. -/
theorem analyzeMetrics_cpu_unbounded_cex :
    (analyzeMetrics overUnitGaugePayload).cpu = 200 ∧
    ¬ (analyzeMetrics overUnitGaugePayload).cpu ≤ 100 := by
  have h : (analyzeMetrics overUnitGaugePayload).cpu = 200 := by
    simp only [analyzeMetrics, overUnitGaugePayload, metricsFold, metricStep,
      metricStepCpu, metricStepMemory, metricStepDisk, gaugeMax, diskMax,
      List.foldl, Option.getD]
    norm_num
    split_ifs <;> rfl
  refine ⟨h, ?_⟩
  rw [h]
  norm_num

/-- C6 (amended): for every decoded payload, `analyzeMetrics` returns
cpu, memory and disk all non-negative — cpu and memory as the maximum
observed gauge value scaled by 100 with no upper cap (they can exceed
100), disk as the maximum observed counter value divided by 100 and
capped at 100 (so disk lies in `[0,100]`) — and `critical = true` iff at
least one of cpu, memory, disk exceeds 80. -/
theorem analyzeMetrics_bounds (rt : RawTelemetry) :
    0 ≤ (analyzeMetrics rt).cpu ∧
    0 ≤ (analyzeMetrics rt).memory ∧
    0 ≤ (analyzeMetrics rt).disk ∧
    (analyzeMetrics rt).disk ≤ 100 ∧
    ((analyzeMetrics rt).critical = true ↔
      80 < (analyzeMetrics rt).cpu ∨ 80 < (analyzeMetrics rt).memory ∨
        80 < (analyzeMetrics rt).disk) := by
  cases h : rt.resourceMetrics with
  | none => simp [analyzeMetrics, h]
  | some rms =>
    obtain ⟨h1, h2, h3, h4⟩ := metricsFold_bounded rms
    simp only [analyzeMetrics, h]
    exact ⟨h1, h2, h3, h4,
      by simp [Bool.or_eq_true, decide_eq_true_eq, or_assoc]⟩

/-- A traces payload of three spans, exactly one flagged with error
status code 2. -/
def threeSpanResourceSpans : List ResourceSpans :=
  [⟨some [⟨some [
    ⟨"aaaabbbbccccdddd0000111122223333", some ⟨some 2⟩, none, none, none⟩,
    ⟨"ffffeeeeddddcccc4444555566667777", some ⟨some 1⟩, none, none, none⟩,
    ⟨"0123456789abcdef0123456789abcdef", none, none, none, none⟩]⟩]⟩]

/-- The three-span payload as a full decoded document. -/
def threeSpanPayload : RawTelemetry := ⟨some threeSpanResourceSpans, none, none⟩

/-- C7: trace and log error rates always lie in `[0,1]`, equal
errors/total whenever the walked total is positive, and equal 0 when the
total is 0 (including absent sections); the three-span payload with one
error span yields `count = 3` and `errorRate = 1/3`. -/
theorem analyzer_errorRate_correct (rt : RawTelemetry) :
    (0 ≤ (analyzeTraces rt).errorRate ∧ (analyzeTraces rt).errorRate ≤ 1) ∧
    (0 ≤ (analyzeLogs rt).errorRate ∧ (analyzeLogs rt).errorRate ≤ 1) ∧
    (∀ rss, rt.resourceSpans = some rss →
      (0 < (tracesFold rss).totalTraces →
        (analyzeTraces rt).errorRate =
          ((tracesFold rss).errorTraces : ℚ) / ((tracesFold rss).totalTraces : ℚ)) ∧
      ((tracesFold rss).totalTraces = 0 → (analyzeTraces rt).errorRate = 0)) ∧
    (rt.resourceSpans = none → (analyzeTraces rt).errorRate = 0) ∧
    (∀ rls, rt.resourceLogs = some rls →
      (0 < (logsFold rls).1 →
        (analyzeLogs rt).errorRate =
          ((logsFold rls).2 : ℚ) / ((logsFold rls).1 : ℚ)) ∧
      ((logsFold rls).1 = 0 → (analyzeLogs rt).errorRate = 0)) ∧
    (rt.resourceLogs = none → (analyzeLogs rt).errorRate = 0) ∧
    (analyzeTraces threeSpanPayload).count = 3 ∧
    (analyzeTraces threeSpanPayload).errorRate = 1 / 3 := by
  have hcount : (tracesFold threeSpanResourceSpans).totalTraces = 3 := by decide
  have herr : (tracesFold threeSpanResourceSpans).errorTraces = 1 := by decide
  refine ⟨?_, ?_, ?_, ?_, ?_, ?_,
    by simpa [analyzeTraces, threeSpanPayload] using hcount,
    by simp [analyzeTraces, threeSpanPayload, hcount, herr]⟩
  · cases h : rt.resourceSpans with
    | none => simp [analyzeTraces, h]
    | some rss =>
      simp only [analyzeTraces, h]
      split_ifs with ht
      · exact count_ratio_mem_unit _ _ (tracesFold_err_le rss) ht
      · norm_num
  · cases h : rt.resourceLogs with
    | none => simp [analyzeLogs, h]
    | some rls =>
      simp only [analyzeLogs, h]
      split_ifs with ht
      · exact count_ratio_mem_unit _ _ (logsFold_err_le rls) ht
      · norm_num
  · intro rss hrss
    simp only [analyzeTraces, hrss]
    constructor
    · intro ht
      rw [if_pos ht]
    · intro ht
      rw [if_neg (by omega)]
  · intro h
    simp [analyzeTraces, h]
  · intro rls hrls
    simp only [analyzeLogs, hrls]
    constructor
    · intro ht
      rw [if_pos ht]
    · intro ht
      rw [if_neg (by omega)]
  · intro h
    simp [analyzeLogs, h]

/-- Witness for C7 at the three-span payload: the walked total is
positive there and the error rate equals errors/total. -/
theorem analyzer_errorRate_correct_witness :
    0 < (tracesFold threeSpanResourceSpans).totalTraces ∧
    (analyzeTraces threeSpanPayload).errorRate =
      ((tracesFold threeSpanResourceSpans).errorTraces : ℚ) /
        ((tracesFold threeSpanResourceSpans).totalTraces : ℚ) :=
  ⟨by decide,
   ((analyzer_errorRate_correct threeSpanPayload).2.2.1
     threeSpanResourceSpans rfl).1 (by decide)⟩

end Sonifier

namespace Sonifier

/-- The headline-activity update of `updateVisualization`
(`script.js` line 91):
`Math.max(this.currentActivity * 0.95, newActivity, 0.1)`. -/
def updateActivity (currentActivity newActivity : ℚ) : ℚ :=
  max (max (currentActivity * (95 / 100)) newActivity) (1 / 10)

/-- C8: the headline activity is updated to exactly
`max(previousActivity * decayFactor, newSample, floor)` with decay factor
95/100 and floor 1/10; the floor is strictly positive, so after any
update the activity is at least 1/10 and in particular never zero. -/
theorem updateActivity_decaying_max_with_floor
    (prev sample : ℚ) :
    updateActivity prev sample =
      max (prev * (95 / 100)) (max sample (1 / 10)) ∧
    (0 : ℚ) < 1 / 10 ∧
    1 / 10 ≤ updateActivity prev sample ∧
    updateActivity prev sample ≠ 0 := by
  have hfloor : (1 : ℚ) / 10 ≤ updateActivity prev sample :=
    le_max_right _ _
  refine ⟨max_assoc _ _ _, by norm_num, hfloor, ?_⟩
  intro h0
  rw [h0] at hfloor
  norm_num at hfloor

/-- The level quantizer of `updateVisualization`
(`script.js` lines 95-105): snap the continuous metric activity into one
of the four levels 0.1 / 0.3 / 0.6 / 1.0 by the thresholds 0.2, 0.45,
0.8. -/
def quantizeLevel (metricActivity : ℚ) : ℚ :=
  if metricActivity < 1 / 5 then 1 / 10
  else if metricActivity < 9 / 20 then 3 / 10
  else if metricActivity < 4 / 5 then 3 / 5
  else 1

/-- The hysteresis guard of `updateVisualization`
(`script.js` lines 93-112) around the quantizer: a positive metrics
sample is quantized, and the new level is acted upon (sky transition)
only when it differs from `this.targetMetricLevel`.  Returns the new
stored level and whether a transition fired. -/
def metricLevelStep (targetMetricLevel metricActivity : ℚ) : ℚ × Bool :=
  if 0 < metricActivity then
    let detectedLevel := quantizeLevel metricActivity
    if detectedLevel ≠ targetMetricLevel then (detectedLevel, true)
    else (targetMetricLevel, false)
  else (targetMetricLevel, false)

/-- C9: a transition fires only when the sample quantizes to a bin level
different from the previously emitted one (and then the new stored level
is that bin); when no transition fires the stored level is unchanged;
and two successive positive samples that quantize into the same bin
never fire a transition on the second sample (no flicker). -/
theorem quantizer_hysteresis (target s₁ s₂ : ℚ) (h₁ : 0 < s₁) :
    ((metricLevelStep target s₁).2 = true →
      quantizeLevel s₁ ≠ target ∧
      (metricLevelStep target s₁).1 = quantizeLevel s₁) ∧
    ((metricLevelStep target s₁).2 = false →
      (metricLevelStep target s₁).1 = target) ∧
    (quantizeLevel s₂ = quantizeLevel s₁ →
      (metricLevelStep (metricLevelStep target s₁).1 s₂).2 = false) := by
  by_cases hne : quantizeLevel s₁ ≠ target
  · refine ⟨fun _ => ⟨hne, by simp [metricLevelStep, h₁, hne]⟩, ?_, ?_⟩
    · simp [metricLevelStep, h₁, hne]
    · intro hsame
      by_cases h₂ : 0 < s₂
      · simp [metricLevelStep, h₁, hne, h₂, hsame]
      · simp [metricLevelStep, h₁, hne, h₂]
  · push_neg at hne
    refine ⟨?_, fun _ => ?_, ?_⟩
    · simp [metricLevelStep, h₁, hne]
    · simp [metricLevelStep, h₁, hne]
    · intro hsame
      by_cases h₂ : 0 < s₂
      · simp [metricLevelStep, h₁, hne, h₂, hsame]
      · simp [metricLevelStep, h₁, hne, h₂]

/-- Witness for C9 at concrete samples: from stored level 0.3, the
sample 0.5 fires a transition to level 0.6, and the second sample 0.7
(same bin as 0.5) does not fire. -/
theorem quantizer_hysteresis_witness :
    (0 : ℚ) < 1 / 2 ∧
    quantizeLevel (7 / 10 : ℚ) = quantizeLevel (1 / 2 : ℚ) ∧
    (metricLevelStep (metricLevelStep (3 / 10) (1 / 2)).1 (7 / 10)).2 = false :=
  ⟨by norm_num, by norm_num [quantizeLevel],
   (quantizer_hysteresis (3 / 10) (1 / 2) (7 / 10) (by norm_num)).2.2
     (by norm_num [quantizeLevel])⟩

/-- C10: on the empty byte payload, JSON validation fails (the empty
string is not valid JSON) and the traces protobuf export-request decoder
succeeds (an empty buffer decodes as the empty export request), so the
first-decoder-wins chain of `handleTelemetry` classifies the empty
payload as traces, not unknown. -/
theorem empty_payload_classifies_traces (d : Decoders)
    (hjson : d.jsonValid [] = false)
    (hproto : d.tracesProtoOk [] = true) :
    (classifyTelemetry d []).1 = "traces" ∧
    (classifyTelemetry d []).1 ≠ "unknown" := by
  have h : (classifyTelemetry d []).1 = "traces" := by
    unfold classifyTelemetry
    simp [hjson, hproto]
  exact ⟨h, by rw [h]; decide⟩

/-- Witness for C10: decoders behaving like the real libraries on the
empty input — `jsonValid` false on empty bytes, the traces protobuf
decoder succeeding with the canonical empty-request JSON `\x7b\x7d` —
classify the empty payload as traces. -/
theorem empty_payload_classifies_traces_witness :
    (let d : Decoders :=
      { jsonValid := fun _ => false
        unmarshalObj := fun _ => none
        tracesProtoOk := fun b => b.isEmpty
        tracesMarshal := fun _ => some [123, 125]
        metricsProtoOk := fun _ => false
        metricsMarshal := fun _ => none
        logsProtoOk := fun _ => false
        logsMarshal := fun _ => none }
     (classifyTelemetry d []).1 = "traces") :=
  (empty_payload_classifies_traces _ rfl rfl).1

end Sonifier
